import Mathlib

/-!
Verification of the movie-recommendation web service (`src/main.py`).

The service is a FastAPI application backed by a SQLite database through
SQLAlchemy.  We model the database as an explicit `Store` value holding the
three tables (`users`, `movies`, `ratings`) and each request handler as a
function from its parsed input and the current store to a result
(`Except Err response`) together with the store after the request.  On any
error the transaction is rolled back, so the returned store equals the input
store in every error branch.

Modelling decisions taken from the source:
- `User.username` and `User.email` are declared `unique=True`
  (src/main.py lines 31-32), so SQLite enforces UNIQUE constraints on them at
  commit time; a violating insert raises an IntegrityError, which no handler
  catches (it surfaces as a generic server error, not an HTTPException).
- `Rating.movie_id` / `Rating.user_id` are ForeignKey columns, but SQLite
  does not enforce foreign keys unless `PRAGMA foreign_keys=ON` is issued,
  and the source never issues it, so rating inserts are unconstrained.
- Primary-key ids are assigned by SQLite as max existing rowid plus one
  (there are no deletes, so this is exact).
- The bcrypt hash (passlib `CryptContext`) is modelled as an arbitrary
  function `hash : String → String` passed explicitly to `create_user`.
-/

namespace MovieRec

/-- Row of the `users` table (class `User`, src/main.py lines 28-33). -/
structure User where
  id : Nat
  username : String
  email : String
  hashed_password : String
deriving DecidableEq, Repr

/-- Row of the `movies` table (class `Movie`, src/main.py lines 35-39). -/
structure Movie where
  id : Nat
  title : String
  description : String
deriving DecidableEq, Repr

/-- Row of the `ratings` table (class `Rating`, src/main.py lines 41-46).
`movie_id` and `user_id` are client-supplied integers; the rating is a
numeric score (SQLAlchemy `Float`, modelled as `Rat` since the code never
computes with it, only stores and returns it). -/
structure Rating where
  id : Nat
  movie_id : Int
  user_id : Int
  rating : Rat
deriving DecidableEq, Repr

/-- The whole database: the three tables created by
`Base.metadata.create_all` (src/main.py line 51). -/
structure Store where
  users : List User
  movies : List Movie
  ratings : List Rating
deriving DecidableEq, Repr

/-- Request body of `POST /register/` (pydantic `UserCreate`). -/
structure UserCreate where
  username : String
  email : String
  password : String
deriving DecidableEq, Repr

/-- Response schema of `POST /register/` (pydantic `UserResponse`,
src/main.py lines 58-64): exactly the fields id, username, email. -/
structure UserResponse where
  id : Nat
  username : String
  email : String
deriving DecidableEq, Repr

/-- Request body of `POST /movies/` (pydantic `MovieCreate`). -/
structure MovieCreate where
  title : String
  description : String
deriving DecidableEq, Repr

/-- Response schema of `POST /movies/` (pydantic `MovieResponse`). -/
structure MovieResponse where
  id : Nat
  title : String
  description : String
deriving DecidableEq, Repr

/-- Request body of `POST /ratings/` (pydantic `RatingCreate`). -/
structure RatingCreate where
  movie_id : Int
  user_id : Int
  rating : Rat
deriving DecidableEq, Repr

/-- Response schema of `POST /ratings/` (pydantic `RatingResponse`). -/
structure RatingResponse where
  id : Nat
  movie_id : Int
  user_id : Int
  rating : Rat
deriving DecidableEq, Repr

/-- Errors a request can end in.  `httpException` is FastAPI's
`HTTPException(status_code, detail)`; `integrityError` is an uncaught
SQLAlchemy IntegrityError from a violated UNIQUE constraint at commit
(surfaces as a generic 500 server error). -/
inductive Err where
  | httpException (statusCode : Nat) (detail : String)
  | integrityError
deriving DecidableEq, Repr

/-- Id SQLite assigns to the next inserted user row: max existing id + 1. -/
def nextUserId (s : Store) : Nat :=
  (s.users.map User.id).foldr max 0 + 1

/-- Id SQLite assigns to the next inserted movie row: max existing id + 1. -/
def nextMovieId (s : Store) : Nat :=
  (s.movies.map Movie.id).foldr max 0 + 1

/-- Id SQLite assigns to the next inserted rating row: max existing id + 1. -/
def nextRatingId (s : Store) : Nat :=
  (s.ratings.map Rating.id).foldr max 0 + 1

/-- `get_password_hash` (src/main.py lines 94-95): applies the configured
hash (`pwd_context.hash`, modelled by the parameter `hash`). -/
def get_password_hash (hash : String → String) (password : String) : String :=
  hash password

/-- Handler of `POST /register/` (`create_user`, src/main.py lines 104-114).
Queries for an existing user with the given email; if found, raises
`HTTPException(400, "Email already registered")`.  Otherwise hashes the
password and inserts the new row.  The commit enforces the UNIQUE
constraints declared on `users.username` and `users.email`; a violation
raises an uncaught IntegrityError and the transaction is rolled back. -/
def create_user (hash : String → String) (user : UserCreate) (s : Store) :
    Except Err UserResponse × Store :=
  match s.users.find? (fun u => u.email == user.email) with
  | some _ => (Except.error (Err.httpException 400 "Email already registered"), s)
  | none =>
    let hashed_password := get_password_hash hash user.password
    let db_user : User := ⟨nextUserId s, user.username, user.email, hashed_password⟩
    if s.users.any (fun u => u.username == user.username || u.email == user.email) then
      (Except.error Err.integrityError, s)
    else
      (Except.ok ⟨db_user.id, db_user.username, db_user.email⟩,
       ⟨s.users ++ [db_user], s.movies, s.ratings⟩)

/-- Handler of `POST /movies/` (`create_movie`, src/main.py lines 116-122).
Unconditionally inserts the new movie and returns it. -/
def create_movie (movie : MovieCreate) (s : Store) :
    Except Err MovieResponse × Store :=
  let db_movie : Movie := ⟨nextMovieId s, movie.title, movie.description⟩
  (Except.ok ⟨db_movie.id, db_movie.title, db_movie.description⟩,
   ⟨s.users, s.movies ++ [db_movie], s.ratings⟩)

/-- Handler of `POST /ratings/` (`create_rating`, src/main.py lines 124-130).
Unconditionally inserts the new rating (no foreign-key check, no range
check) and returns it. -/
def create_rating (rating : RatingCreate) (s : Store) :
    Except Err RatingResponse × Store :=
  let db_rating : Rating :=
    ⟨nextRatingId s, rating.movie_id, rating.user_id, rating.rating⟩
  (Except.ok ⟨db_rating.id, db_rating.movie_id, db_rating.user_id, db_rating.rating⟩,
   ⟨s.users, s.movies, s.ratings ++ [db_rating]⟩)

/-- Handler of `GET /recommendations/{user_id}` (`get_recommendations`,
src/main.py lines 132-136): queries all movies and returns them through the
`MovieResponse` schema; the user id is never consulted. -/
def get_recommendations (user_id : Int) (s : Store) :
    List MovieResponse × Store :=
  let _ := user_id
  (s.movies.map (fun m => ⟨m.id, m.title, m.description⟩), s)

/-- Handler of `GET /` (`read_root`, src/main.py lines 138-140): returns the
welcome message. -/
def read_root (s : Store) : String × Store :=
  ("Welcome to the Movie Recommendation System", s)

/-- Stores reachable from the empty, freshly created database by any
sequence of requests (each handler leaves the store unchanged whenever it
errors, so the error branches are covered too). -/
inductive Reachable (hash : String → String) : Store → Prop where
  | init : Reachable hash ⟨[], [], []⟩
  | register (u : UserCreate) {s : Store} :
      Reachable hash s → Reachable hash (create_user hash u s).2
  | addMovie (m : MovieCreate) {s : Store} :
      Reachable hash s → Reachable hash (create_movie m s).2
  | addRating (r : RatingCreate) {s : Store} :
      Reachable hash s → Reachable hash (create_rating r s).2

/-- Every reachable store has pairwise-distinct usernames: an insert only
happens when the commit-time UNIQUE check on `users.username` passes. -/
theorem reachable_usernames_nodup (hash : String → String) {s : Store}
    (h : Reachable hash s) :
    s.users.Pairwise (fun a b => a.username ≠ b.username) := by
  induction h with
  | init => simp
  | register u hr ih =>
    rename_i t
    by_cases hfind : ∃ v, t.users.find? (fun w => w.email == u.email) = some v
    · obtain ⟨v, hv⟩ := hfind
      simpa [create_user, hv] using ih
    · have hnone : t.users.find? (fun w => w.email == u.email) = none := by
        cases hcase : t.users.find? (fun w => w.email == u.email) with
        | none => rfl
        | some v => exact absurd ⟨v, hcase⟩ hfind
      by_cases hany :
          t.users.any (fun w => w.username == u.username || w.email == u.email) = true
      · simpa [create_user, hnone, hany] using ih
      · have hfa : ∀ a ∈ t.users, a.username ≠ u.username := by
          intro a ha heq
          exact hany (List.any_eq_true.mpr ⟨a, ha, by simp [heq]⟩)
        have hres : (create_user hash u t).2.users =
            t.users ++ [⟨nextUserId t, u.username, u.email,
                         get_password_hash hash u.password⟩] := by
          simp [create_user, hnone, hany]
        rw [hres]
        refine List.pairwise_append.mpr ⟨ih, by simp, ?_⟩
        intro a ha b hb
        simp only [List.mem_singleton] at hb
        subst hb
        exact hfa a ha
  | addMovie m hr ih => simpa [create_movie] using ih
  | addRating r hr ih => simpa [create_rating] using ih

/-- C1: if the store already contains a user with the request's email, the
registration handler fails with HTTP 400 "Email already registered"; and a
successful registration implies no user with that email existed. -/
theorem create_user_email_uniqueness (hash : String → String)
    (user : UserCreate) (s : Store) :
    ((∃ u ∈ s.users, u.email = user.email) →
      (create_user hash user s).1 =
        Except.error (Err.httpException 400 "Email already registered")) ∧
    (∀ r : UserResponse, (create_user hash user s).1 = Except.ok r →
      ∀ u ∈ s.users, u.email ≠ user.email) := by
  constructor
  · rintro ⟨u, hu, he⟩
    cases hfind : s.users.find? (fun w => w.email == user.email) with
    | some v => simp [create_user, hfind]
    | none =>
      rw [List.find?_eq_none] at hfind
      exact absurd (by simp [he]) (hfind u hu)
  · intro r hok u hu he
    cases hfind : s.users.find? (fun w => w.email == user.email) with
    | some v => simp [create_user, hfind] at hok
    | none =>
      rw [List.find?_eq_none] at hfind
      exact hfind u hu (by simp [he])

/-- Witness for C1 on a concrete store: registering a second user with the
already-present email fails with the 400 conflict error. -/
theorem create_user_email_uniqueness_witness :
    (create_user (fun p => String.append "h:" p) ⟨"bob", "a@x.com", "pw"⟩
       ⟨[⟨1, "alice", "a@x.com", "h"⟩], [], []⟩).1 =
      Except.error (Err.httpException 400 "Email already registered") :=
  (create_user_email_uniqueness (fun p => String.append "h:" p)
      ⟨"bob", "a@x.com", "pw"⟩ ⟨[⟨1, "alice", "a@x.com", "h"⟩], [], []⟩).1
    ⟨⟨1, "alice", "a@x.com", "h"⟩, by simp, rfl⟩

/-- C2: the recommendation handler returns exactly the movies of the store
(each through the response schema), and after creating a movie the
recommendations for any user id include the created movie. -/
theorem get_recommendations_all_movies (s : Store) (uid : Int) :
    (∀ r : MovieResponse, r ∈ (get_recommendations uid s).1 ↔
       ∃ m ∈ s.movies, r = ⟨m.id, m.title, m.description⟩) ∧
    (∀ (mc : MovieCreate) (uid2 : Int) (resp : MovieResponse),
       (create_movie mc s).1 = Except.ok resp →
       resp ∈ (get_recommendations uid2 (create_movie mc s).2).1) := by
  constructor
  · intro r
    simp only [get_recommendations, List.mem_map]
    constructor
    · rintro ⟨m, hm, rfl⟩; exact ⟨m, hm, rfl⟩
    · rintro ⟨m, hm, rfl⟩; exact ⟨m, hm, rfl⟩
  · intro mc uid2 resp hok
    have : resp = ⟨nextMovieId s, mc.title, mc.description⟩ := by
      simpa [create_movie] using hok.symm
    subst this
    simp [create_movie, get_recommendations]

/-- Witness for C2 on a concrete store: the movie just created appears in a
subsequent recommendations call. -/
theorem get_recommendations_all_movies_witness :
    (⟨1, "t", "d"⟩ : MovieResponse) ∈
      (get_recommendations 7 (create_movie ⟨"t", "d"⟩ ⟨[], [], []⟩).2).1 :=
  (get_recommendations_all_movies ⟨[], [], []⟩ 0).2 ⟨"t", "d"⟩ 7 ⟨1, "t", "d"⟩ rfl

/-- C3: a successful registration responds with exactly the created user's
id, username and email (the `UserResponse` schema has no password field),
and the response is entirely independent of the submitted password, so
neither the password nor its hash can occur in it. -/
theorem create_user_response_shape (hash : String → String)
    (user : UserCreate) (s : Store) (r : UserResponse) :
    (create_user hash user s).1 = Except.ok r →
    r = ⟨nextUserId s, user.username, user.email⟩ ∧
    ∀ p2 : String,
      (create_user hash ⟨user.username, user.email, p2⟩ s).1 =
        Except.ok (⟨nextUserId s, user.username, user.email⟩ : UserResponse) := by
  intro hok
  cases hfind : s.users.find? (fun w => w.email == user.email) with
  | some v => simp [create_user, hfind] at hok
  | none =>
    by_cases hany :
        s.users.any (fun w => w.username == user.username || w.email == user.email) = true
    · simp [create_user, hfind, hany] at hok
    · refine ⟨?_, ?_⟩
      · have := hok.symm
        simpa [create_user, hfind, hany] using this
      · intro p2
        simp [create_user, hfind, hany]

/-- Witness for C3 on a concrete store: a successful registration returns
id/username/email only, and changing the password leaves the response
unchanged. -/
theorem create_user_response_shape_witness :
    (create_user (fun p => String.append "h:" p)
       ⟨"alice", "a@x.com", "zzz"⟩ ⟨[], [], []⟩).1 =
      Except.ok
        (⟨nextUserId ⟨[], [], []⟩, "alice", "a@x.com"⟩ : UserResponse) :=
  (create_user_response_shape (fun p => String.append "h:" p)
      ⟨"alice", "a@x.com", "pw"⟩ ⟨[], [], []⟩ ⟨1, "alice", "a@x.com"⟩
      (by simp [create_user, nextUserId, get_password_hash])).2 "zzz"

/-- C4 counterexample: registering a duplicate username with a fresh email
against a store that already holds that username does fail, but with the
uncaught database IntegrityError, not with the HTTP 400 conflict that the
handler's only existence check (on email) raises — so username uniqueness
is not enforced "via an existence check in the registration handler". -/
theorem username_check_counterexample :
    (create_user (fun p => String.append "h:" p) ⟨"alice", "b@x.com", "pw"⟩
       ⟨[⟨1, "alice", "a@x.com", "h"⟩], [], []⟩).1 =
      Except.error Err.integrityError ∧
    (Except.error Err.integrityError : Except Err UserResponse) ≠
      Except.error (Err.httpException 400 "Email already registered") := by
  constructor
  · rfl
  · intro h
    exact absurd (Except.error.inj h) (by simp)

/-- C4 amended: username uniqueness is enforced at write time by the
database UNIQUE constraint at commit, not by a handler existence check:
registering an existing username with a fresh email fails with an uncaught
IntegrityError and leaves the store unchanged, and consequently no
reachable store contains two users with the same username. -/
theorem username_uniqueness_db_enforced (hash : String → String)
    (user : UserCreate) (s : Store)
    (hdup : ∃ v ∈ s.users, v.username = user.username)
    (hfresh : ∀ v ∈ s.users, v.email ≠ user.email) :
    create_user hash user s = (Except.error Err.integrityError, s) ∧
    (∀ t : Store, Reachable hash t →
       t.users.Pairwise (fun a b => a.username ≠ b.username)) := by
  refine ⟨?_, fun t ht => reachable_usernames_nodup hash ht⟩
  obtain ⟨v, hv, hname⟩ := hdup
  have hnone : s.users.find? (fun w => w.email == user.email) = none := by
    rw [List.find?_eq_none]
    intro w hw
    simp [hfresh w hw]
  have hany :
      s.users.any (fun w => w.username == user.username || w.email == user.email) = true :=
    List.any_eq_true.mpr ⟨v, hv, by simp [hname]⟩
  simp [create_user, hnone, hany]

/-- Witness for the amended C4 on a concrete store: a duplicate username
with a fresh email yields the IntegrityError and an unchanged store. -/
theorem username_uniqueness_db_enforced_witness :
    create_user (fun p => String.append "h:" p) ⟨"alice", "b@x.com", "pw"⟩
      ⟨[⟨1, "alice", "a@x.com", "h"⟩], [], []⟩ =
      (Except.error Err.integrityError,
       ⟨[⟨1, "alice", "a@x.com", "h"⟩], [], []⟩) :=
  (username_uniqueness_db_enforced (fun p => String.append "h:" p)
      ⟨"alice", "b@x.com", "pw"⟩ ⟨[⟨1, "alice", "a@x.com", "h"⟩], [], []⟩
      ⟨⟨1, "alice", "a@x.com", "h"⟩, by simp, rfl⟩
      (by intro v hv; simp at hv; subst hv; simp)).1

/-- C5: for every input, the rating creation handler succeeds (no
existence check on the movie/user ids, no range check on the value),
appends exactly the new rating row, and returns the created record. -/
theorem create_rating_unconditional (r : RatingCreate) (s : Store) :
    (create_rating r s).1 =
      Except.ok ⟨nextRatingId s, r.movie_id, r.user_id, r.rating⟩ ∧
    (create_rating r s).2.ratings =
      s.ratings ++ [⟨nextRatingId s, r.movie_id, r.user_id, r.rating⟩] ∧
    (create_rating r s).2.users = s.users ∧
    (create_rating r s).2.movies = s.movies :=
  ⟨rfl, rfl, rfl, rfl⟩

/-- C6: for a fixed store the recommendation handler returns the same
result for every pair of user ids — the output does not depend on the user
id input. -/
theorem get_recommendations_user_independent (s : Store) (u1 u2 : Int) :
    get_recommendations u1 s = get_recommendations u2 s := rfl

/-- C7: a successful registration stores the new user with
`hashed_password` equal to `get_password_hash` of the submitted password;
the stored rows are exactly the old ones plus that single hashed row. -/
theorem create_user_stores_hash (hash : String → String)
    (user : UserCreate) (s : Store) (r : UserResponse) :
    (create_user hash user s).1 = Except.ok r →
    (create_user hash user s).2.users =
      s.users ++ [⟨nextUserId s, user.username, user.email,
                   get_password_hash hash user.password⟩] := by
  intro hok
  cases hfind : s.users.find? (fun w => w.email == user.email) with
  | some v => simp [create_user, hfind] at hok
  | none =>
    by_cases hany :
        s.users.any (fun w => w.username == user.username || w.email == user.email) = true
    · simp [create_user, hfind, hany] at hok
    · simp [create_user, hfind, hany]

/-- Witness for C7 on a concrete store: the stored row carries the hash of
the submitted password. -/
theorem create_user_stores_hash_witness :
    (create_user (fun p => String.append "h:" p)
       ⟨"alice", "a@x.com", "pw"⟩ ⟨[], [], []⟩).2.users =
      [] ++ [⟨nextUserId ⟨[], [], []⟩, "alice", "a@x.com",
              get_password_hash (fun p => String.append "h:" p) "pw"⟩] :=
  create_user_stores_hash (fun p => String.append "h:" p)
    ⟨"alice", "a@x.com", "pw"⟩ ⟨[], [], []⟩ ⟨1, "alice", "a@x.com"⟩
    (by simp [create_user, nextUserId, get_password_hash])

/-- C8: for every input the movie creation handler unconditionally
succeeds, appends exactly the new movie row, and returns the created
record with its fields — there is no precondition and no failure branch. -/
theorem create_movie_unconditional (m : MovieCreate) (s : Store) :
    (create_movie m s).1 =
      Except.ok ⟨nextMovieId s, m.title, m.description⟩ ∧
    (create_movie m s).2.movies =
      s.movies ++ [⟨nextMovieId s, m.title, m.description⟩] ∧
    (create_movie m s).2.users = s.users ∧
    (create_movie m s).2.ratings = s.ratings :=
  ⟨rfl, rfl, rfl, rfl⟩

/-- C9: when registration fails with the duplicate-email 400 conflict, the
store is left exactly as it was — the exception is raised before any
insert. -/
theorem create_user_conflict_preserves_store (hash : String → String)
    (user : UserCreate) (s : Store) (d : String) :
    (create_user hash user s).1 = Except.error (Err.httpException 400 d) →
    (create_user hash user s).2 = s := by
  intro herr
  cases hfind : s.users.find? (fun w => w.email == user.email) with
  | some v => simp [create_user, hfind]
  | none =>
    by_cases hany :
        s.users.any (fun w => w.username == user.username || w.email == user.email) = true
    · simp [create_user, hfind, hany]
    · simp [create_user, hfind, hany] at herr

/-- Witness for C9 on a concrete store: the conflicting registration leaves
the store unchanged. -/
theorem create_user_conflict_preserves_store_witness :
    (create_user (fun p => String.append "h:" p) ⟨"bob", "a@x.com", "pw"⟩
       ⟨[⟨1, "alice", "a@x.com", "h"⟩], [], []⟩).2 =
      ⟨[⟨1, "alice", "a@x.com", "h"⟩], [], []⟩ :=
  create_user_conflict_preserves_store (fun p => String.append "h:" p)
    ⟨"bob", "a@x.com", "pw"⟩ ⟨[⟨1, "alice", "a@x.com", "h"⟩], [], []⟩
    "Email already registered" (by simp [create_user])

/-- C10: the recommendation handler and the root endpoint are read-only:
the users, movies and ratings tables after the request equal the tables
before it. -/
theorem read_endpoints_read_only (uid : Int) (s : Store) :
    ((get_recommendations uid s).2.users = s.users ∧
     (get_recommendations uid s).2.movies = s.movies ∧
     (get_recommendations uid s).2.ratings = s.ratings) ∧
    ((read_root s).2.users = s.users ∧
     (read_root s).2.movies = s.movies ∧
     (read_root s).2.ratings = s.ratings) :=
  ⟨⟨rfl, rfl, rfl⟩, ⟨rfl, rfl, rfl⟩⟩

end MovieRec
